import Mathlib

/-!
Verification of the ThinkPixelLLMGW admin BFF (webui/bff/app): cookie
signing/verification (`security.py`), the auth guard (`dependencies.py`),
the upstream client (`gateway_client.py`) and the route handlers
(`auth.py`, `admin.py`).

Byte strings are modelled as `List Nat` (byte codes).  The itsdangerous
`URLSafeTimedSerializer` is third-party code, so its wire format is
modelled from the spec (section 4.1): a signed value embeds the payload,
a generation timestamp and a keyed integrity tag, separated by a fixed
byte (the dot, code 46) that never occurs inside the encoded parts, and
verification recomputes the tag over the payload-plus-timestamp part and
then checks the age.  The payload is carried by an injective dot-free
byte-pair (hex) encoding standing in for base64url, and the integrity
tag is idealized as a collision-free keyed code (the symbolic model of
an HMAC).
-/

namespace Bff

/-- Byte strings: lists of byte codes. -/
abbrev Str := List Nat

/-- Byte string of a Lean string literal (code points of its characters). -/
def strLit (s : String) : Str := s.data.map Char.toNat

/-- Hex digit byte for a value below 16 (codes of 0-9 and a-f). -/
def hexDig (n : Nat) : Nat := if n < 10 then 48 + n else 87 + n

/-- Value of a hex digit byte (inverse of `hexDig` on digits). -/
def hexVal (n : Nat) : Nat := if n < 58 then n - 48 else n - 87

/-- Two hex digit bytes encoding one byte. -/
def encByte (c : Nat) : Str := [hexDig (c / 16 % 16), hexDig (c % 16)]

/-- Dot-free injective byte-pair encoding of a byte string (the stand-in
for base64url in the modelled serializer). -/
def hexPairs : Str → Str
  | [] => []
  | c :: rest => encByte c ++ hexPairs rest

/-- Decoder for `hexPairs`. -/
def decodeHex : Str → Str
  | a :: b :: rest => (hexVal a * 16 + hexVal b) :: decodeHex rest
  | _ => []

/-- Dot-free encoding of the generation timestamp. -/
def encTs (t : Nat) : Str := List.replicate t 49

/-- Decoder for `encTs`. -/
def decodeTs (l : Str) : Nat := l.length

/-- Keyed integrity tag over a message, for a given secret and salt
(context label).  Modelled from the spec: the tag of the serializer
("an integrity tag (e.g., HMAC)"), idealized as a collision-free keyed
code with dot-free output. -/
def macFn (secret salt msg : Str) : Str := hexPairs (secret ++ salt ++ msg)

/-- Split a byte string at its last dot (code 46): returns the part
before and the part after.  Models the right-split the serializer uses
to separate the signature, and then the timestamp, from the value. -/
def rsplitDot : Str → Option (Str × Str)
  | [] => none
  | c :: rest =>
    match rsplitDot rest with
    | some (a, b) => some (c :: a, b)
    | none => if c = 46 then some ([], rest) else none

/-- Serializer dump: payload and timestamp in dot-free encodings, joined
by dots, followed by the integrity tag over the joined part.  Modelled
from the spec (section 4.1). -/
def dumps (secret salt payload : Str) (now : Nat) : Str :=
  let rest := hexPairs payload ++ 46 :: encTs now
  rest ++ 46 :: macFn secret salt rest

/-- Result of the modelled serializer load: the embedded payload, or one
of the two failure kinds (bad signature, expired). -/
inductive LoadResult where
  | ok (payload : Str)
  | badSignature
  | signatureExpired
deriving DecidableEq

/-- Serializer load: recover the signature and the signed part, check
the tag, recover the timestamp, check the age against `maxAge` (when
given), and decode the payload.  Modelled from the spec (section 4.1). -/
def loads (secret salt : Str) (value : Str) (maxAge : Option Nat) (now : Nat) : LoadResult :=
  match rsplitDot value with
  | none => .badSignature
  | some (signedPart, sig) =>
    if sig = macFn secret salt signedPart then
      match rsplitDot signedPart with
      | none => .badSignature
      | some (payloadPart, tsPart) =>
        let timestamp := decodeTs tsPart
        match maxAge with
        | some m => if m < now - timestamp then .signatureExpired else .ok (decodeHex payloadPart)
        | none => .ok (decodeHex payloadPart)
    else .badSignature

/-- Salt used by `security.py` for the admin cookie. -/
def saltAdminCookie : Str := strLit "admin-cookie"

/-- Embedding of `security.sign_token`: sign a token for cookie storage
with the serializer under the salt "admin-cookie".  Signing time is the
explicit `now`. -/
def sign_token (secret : Str) (token : Str) (now : Nat) : Str :=
  dumps secret saltAdminCookie token now

/-- Embedding of `security.verify_token`: load the signed value; the two
failure kinds (`BadSignature`, `SignatureExpired`) are caught and mapped
to `none`, success yields the embedded token. -/
def verify_token (secret : Str) (signed_token : Str) (max_age : Option Nat) (now : Nat) : Option Str :=
  match loads secret saltAdminCookie signed_token max_age now with
  | .ok token => some token
  | .badSignature => none
  | .signatureExpired => none

/-- Embedding of `config.Settings` (the fields the examined code reads). -/
structure Settings where
  gateway_base_url : String
  secret_key : Str
  cookie_name : String
  cookie_max_age : Nat
deriving DecidableEq

/-- The in-code defaults of `config.Settings`. -/
def defaultSettings : Settings :=
  ⟨ "http://localhost:8080", strLit "change-this-to-a-secure-random-key-in-production", "admin_token", 3600 ⟩

/-- JSON object bodies exchanged with the gateway, modelled as
association lists from field names to byte-string values (the BFF only
ever reads the string fields "token" and "detail" and otherwise passes
bodies through verbatim). -/
abbrev Body := List (String × Str)

/-- Outbound request built by `gateway_request`: method, absolute url,
optional Authorization header, optional JSON body, query parameters and
the per-call timeout in seconds. -/
structure TransportReq where
  method : String
  url : String
  authorization : Option Str
  json_data : Option Body
  params : List (String × Int)
  timeout : Nat
deriving DecidableEq

/-- Body of an upstream HTTP response as seen by `response.json()`:
either a parsed JSON object or an unparsable (or empty) body. -/
inductive BodyParse where
  | parsed (b : Body)
  | unparsable
deriving DecidableEq

/-- Outcome of one outbound HTTP call: a response, or a transport
failure (timeout / unreachable upstream), which in the source raises. -/
inductive TransportResult where
  | response (status : Nat) (body : BodyParse)
  | transportError
deriving DecidableEq

/-- The upstream network, as an oracle from requests to outcomes. -/
def Transport := TransportReq → TransportResult

/-- Request constructed inside `gateway_request`: url is the gateway
base url concatenated with the path, the Authorization header carries
the bearer token only when a non-empty token is supplied (Python
`if jwt_token:`), and the timeout is the fixed 30 seconds. -/
def mkTransportReq (st : Settings) (method path : String) (jwt_token : Option Str)
    (json_data : Option Body) (params : List (String × Int)) : TransportReq :=
  ⟨ method, st.gateway_base_url ++ path,
    match jwt_token with
    | some t => if t = [] then none else some (strLit "Bearer " ++ t)
    | none => none,
    json_data, params, 30 ⟩

/-- Embedding of `gateway_client.gateway_request`: perform the call; a
JSON parse failure degrades the body to `none` (the try/except in the
source); a transport failure is NOT caught and propagates to the caller
(`.error ()`). -/
def gateway_request (st : Settings) (tr : Transport) (method path : String)
    (jwt_token : Option Str) (json_data : Option Body) (params : List (String × Int)) :
    Except Unit (Nat × Option Body) :=
  match tr (mkTransportReq st method path jwt_token json_data params) with
  | .transportError => .error ()
  | .response status body =>
    .ok (status, match body with
      | .parsed b => some b
      | .unparsable => none)

/-- Result of the auth-guard dependency: the verified bearer token, or
an HTTP error (status and detail). -/
inductive GuardResult where
  | ok (jwt_token : Str)
  | httpError (status : Nat) (detail : Str)
deriving DecidableEq

/-- Embedding of `dependencies.get_current_admin_token`.  Python
truthiness is kept: `if not admin_token` also fires on an empty cookie
value, and `if not jwt_token` also fires on an empty verified payload. -/
def get_current_admin_token (st : Settings) (admin_token : Option Str) (now : Nat) : GuardResult :=
  match admin_token with
  | none => .httpError 401 (strLit "Not authenticated")
  | some tok =>
    if tok = [] then .httpError 401 (strLit "Not authenticated")
    else
      match verify_token st.secret_key tok (some st.cookie_max_age) now with
      | none => .httpError 401 (strLit "Invalid or expired token")
      | some jwt =>
        if jwt = [] then .httpError 401 (strLit "Invalid or expired token")
        else .ok jwt

/-- Outcome of a route handler: a JSON body (`return data`), the login
acknowledgment (`LoginResponse(success=...)`, a body with no token
field), an `HTTPException`, or a propagated transport exception. -/
inductive RouteResult where
  | okBody (data : Option Body)
  | okLogin (success : Bool)
  | httpError (status : Nat) (detail : Str)
  | transportError
deriving DecidableEq

/-- Detail string the handlers compute for a non-200 upstream response:
`data.get("detail", fallback) if data else fallback` (an absent or
falsy-empty body, and a body without "detail", give the fallback). -/
def pyDetail (data : Option Body) (fallback : Str) : Str :=
  match data with
  | none => fallback
  | some d =>
    if d = [] then fallback
    else
      match d.lookup "detail" with
      | some v => v
      | none => fallback

/-- Cookie set by `response.set_cookie` in the login handler. -/
structure SetCookie where
  name : String
  value : Str
  max_age : Nat
  httponly : Bool
  secure : Bool
  samesite : String
deriving DecidableEq

/-- Result of the login route: handler outcome plus the cookie set on
the response (none when no cookie was set). -/
structure LoginRun where
  result : RouteResult
  cookie : Option SetCookie
deriving DecidableEq

/-- Embedding of `auth.login`: call the gateway login endpoint; any
non-200 status, falsy body or body without a "token" field gives the
single generic 401 without touching the cookie; on success the token is
signed and set as the session cookie and only `{success: true}` is
returned. -/
def login (st : Settings) (tr : Transport) (email password : Str) (now : Nat) : LoginRun :=
  match gateway_request st tr "POST" "/admin/login" none
      (some [("email", email), ("password", password)]) [] with
  | .error _ => ⟨.transportError, none⟩
  | .ok (status_code, data) =>
    if status_code ≠ 200 then ⟨.httpError 401 (strLit "Invalid credentials"), none⟩
    else
      match data with
      | none => ⟨.httpError 401 (strLit "Invalid credentials"), none⟩
      | some d =>
        if d = [] then ⟨.httpError 401 (strLit "Invalid credentials"), none⟩
        else
          match d.lookup "token" with
          | none => ⟨.httpError 401 (strLit "Invalid credentials"), none⟩
          | some jwt_token =>
            ⟨.okLogin true,
              some ⟨st.cookie_name, sign_token st.secret_key jwt_token now,
                    st.cookie_max_age, true, false, "strict"⟩⟩

/-- Embedding of `auth.me` (handler body, after the guard dependency). -/
def me (st : Settings) (tr : Transport) (jwt_token : Str) : RouteResult :=
  match gateway_request st tr "GET" "/admin/me" (some jwt_token) none [] with
  | .error _ => .transportError
  | .ok (status_code, data) =>
    if status_code ≠ 200 then
      .httpError status_code (pyDetail data (strLit "Failed to get user info"))
    else .okBody data

/-- Embedding of `admin.list_api_keys` (handler body, after the guard
and the query-parameter validation). -/
def list_api_keys (st : Settings) (tr : Transport) (jwt_token : Str)
    (page page_size : Int) : RouteResult :=
  match gateway_request st tr "GET" "/admin/keys" (some jwt_token) none
      [("page", page), ("page_size", page_size)] with
  | .error _ => .transportError
  | .ok (status_code, data) =>
    if status_code ≠ 200 then
      .httpError status_code (pyDetail data (strLit "Failed to list API keys"))
    else .okBody data

/-- Embedding of `admin.list_models` (handler body, after the guard and
the query-parameter validation). -/
def list_models (st : Settings) (tr : Transport) (jwt_token : Str)
    (page page_size : Int) : RouteResult :=
  match gateway_request st tr "GET" "/admin/models" (some jwt_token) none
      [("page", page), ("page_size", page_size)] with
  | .error _ => .transportError
  | .ok (status_code, data) =>
    if status_code ≠ 200 then
      .httpError status_code (pyDetail data (strLit "Failed to list models"))
    else .okBody data

/-- Embedding of `admin.get_billing` (handler body, after the guard). -/
def get_billing (st : Settings) (tr : Transport) (jwt_token : Str) : RouteResult :=
  match gateway_request st tr "GET" "/admin/billing" (some jwt_token) none [] with
  | .error _ => .transportError
  | .ok (status_code, data) =>
    if status_code ≠ 200 then
      .httpError status_code (pyDetail data (strLit "Failed to get billing info"))
    else .okBody data

/-- Modelled from the spec: FastAPI query validation for
`admin.list_api_keys` (`Query(1, ge=1)`, `Query(20, ge=1, le=100)`).
Out-of-range values are rejected with a 422 validation error before the
handler body, and hence before any upstream call, runs. -/
def list_api_keys_route (st : Settings) (tr : Transport) (jwt_token : Str)
    (page page_size : Int) : RouteResult :=
  if 1 ≤ page ∧ 1 ≤ page_size ∧ page_size ≤ 100 then
    list_api_keys st tr jwt_token page page_size
  else .httpError 422 (strLit "Unprocessable Entity")

/-- Modelled from the spec: FastAPI query validation for
`admin.list_models`, identical to the one of `admin.list_api_keys`. -/
def list_models_route (st : Settings) (tr : Transport) (jwt_token : Str)
    (page page_size : Int) : RouteResult :=
  if 1 ≤ page ∧ 1 ≤ page_size ∧ page_size ≤ 100 then
    list_models st tr jwt_token page page_size
  else .httpError 422 (strLit "Unprocessable Entity")

/-- Transport oracle on which every call times out / fails to connect. -/
def failTr : Transport := fun _ => .transportError

/-! Facts about the byte-pair encoding. -/

theorem hexDig_lt (n : Nat) (h : n < 16) : hexDig n < 256 := by
  unfold hexDig; split <;> omega

theorem hexDig_ne_dot (n : Nat) : hexDig n ≠ 46 := by
  unfold hexDig; split <;> omega

theorem hexVal_hexDig (n : Nat) (h : n < 16) : hexVal (hexDig n) = n := by
  by_cases h10 : n < 10
  · rw [hexDig, if_pos h10, hexVal, if_pos (by omega)]; omega
  · rw [hexDig, if_neg h10, hexVal, if_neg (by omega)]; omega

theorem encByte_length (c : Nat) : (encByte c).length = 2 := rfl

theorem mem_encByte_lt (c x : Nat) (h : x ∈ encByte c) : x < 256 := by
  rw [encByte] at h
  simp only [List.mem_cons, List.not_mem_nil, or_false] at h
  rcases h with h | h
  · rw [h]; exact hexDig_lt _ (by omega)
  · rw [h]; exact hexDig_lt _ (by omega)

theorem dot_not_mem_encByte (c : Nat) : 46 ∉ encByte c := by
  intro h
  rw [encByte] at h
  simp only [List.mem_cons, List.not_mem_nil, or_false] at h
  rcases h with h | h
  · exact hexDig_ne_dot _ h.symm
  · exact hexDig_ne_dot _ h.symm

theorem hexPairs_length (l : Str) : (hexPairs l).length = 2 * l.length := by
  induction l with
  | nil => rfl
  | cons c rest ih =>
    rw [hexPairs, List.length_append, encByte_length, ih, List.length_cons]
    omega

theorem dot_not_mem_hexPairs (l : Str) : 46 ∉ hexPairs l := by
  induction l with
  | nil => intro h; cases h
  | cons c rest ih =>
    intro h
    rw [hexPairs] at h
    rcases List.mem_append.mp h with h1 | h2
    · exact dot_not_mem_encByte c h1
    · exact ih h2

theorem mem_hexPairs_lt (l : Str) (x : Nat) (h : x ∈ hexPairs l) : x < 256 := by
  induction l with
  | nil => cases h
  | cons c rest ih =>
    rw [hexPairs] at h
    rcases List.mem_append.mp h with h1 | h2
    · exact mem_encByte_lt c x h1
    · exact ih h2

theorem decodeHex_encByte (c : Nat) (rest : Str) :
    decodeHex (encByte c ++ rest) = c % 256 :: decodeHex rest := by
  show decodeHex (hexDig (c / 16 % 16) :: hexDig (c % 16) :: rest) = _
  rw [decodeHex, hexVal_hexDig _ (by omega), hexVal_hexDig _ (by omega)]
  congr 1
  omega

theorem decodeHex_hexPairs (l : Str) : decodeHex (hexPairs l) = l.map (fun c => c % 256) := by
  induction l with
  | nil => rfl
  | cons c rest ih => rw [hexPairs, decodeHex_encByte, ih, List.map_cons]

theorem map_mod_id (l : Str) (h : ∀ c ∈ l, c < 256) : l.map (fun c => c % 256) = l := by
  induction l with
  | nil => rfl
  | cons c rest ih =>
    rw [List.map_cons, Nat.mod_eq_of_lt (h c (List.mem_cons_self c rest)),
      ih (fun x hx => h x (List.mem_cons_of_mem c hx))]

theorem decodeHex_hexPairs_id (l : Str) (h : ∀ c ∈ l, c < 256) : decodeHex (hexPairs l) = l := by
  rw [decodeHex_hexPairs, map_mod_id l h]

/-! Facts about the timestamp encoding and the integrity tag. -/

theorem encTs_length (t : Nat) : (encTs t).length = t := List.length_replicate t 49

theorem dot_not_mem_encTs (t : Nat) : 46 ∉ encTs t := by
  intro h
  have := List.eq_of_mem_replicate h
  omega

theorem mem_encTs_lt (t x : Nat) (h : x ∈ encTs t) : x < 256 := by
  have := List.eq_of_mem_replicate h
  omega

theorem decodeTs_encTs (t : Nat) : decodeTs (encTs t) = t := encTs_length t

theorem macFn_length (secret salt msg : Str) :
    (macFn secret salt msg).length = 2 * (secret.length + salt.length + msg.length) := by
  rw [macFn, hexPairs_length, List.length_append, List.length_append]

theorem dot_not_mem_macFn (secret salt msg : Str) : 46 ∉ macFn secret salt msg :=
  dot_not_mem_hexPairs _

theorem macFn_inj (secret salt m1 m2 : Str) (h1 : ∀ c ∈ m1, c < 256) (h2 : ∀ c ∈ m2, c < 256)
    (he : macFn secret salt m1 = macFn secret salt m2) : m1 = m2 := by
  have hd := congrArg decodeHex he
  rw [macFn, macFn, decodeHex_hexPairs, decodeHex_hexPairs] at hd
  simp only [List.map_append] at hd
  have hm := List.append_cancel_left hd
  rw [map_mod_id m1 h1, map_mod_id m2 h2] at hm
  exact hm

/-! Facts about the right-split at the last dot. -/

theorem rsplitDot_eq_none (l : Str) (h : 46 ∉ l) : rsplitDot l = none := by
  induction l with
  | nil => rfl
  | cons c rest ih =>
    rw [rsplitDot, ih (fun hm => h (List.mem_cons_of_mem _ hm))]
    exact if_neg (fun hc => h (by rw [hc]; exact List.mem_cons_self _ _))

theorem rsplitDot_append (r s : Str) (h : 46 ∉ s) :
    rsplitDot (r ++ 46 :: s) = some (r, s) := by
  induction r with
  | nil =>
    rw [List.nil_append, rsplitDot, rsplitDot_eq_none s h]
    exact if_pos rfl
  | cons a r' ih =>
    rw [List.cons_append, rsplitDot, ih]

/-! The sign/verify round trip. -/

theorem loads_dumps (secret salt payload : Str) (t now maxAge : Nat)
    (hpay : ∀ c ∈ payload, c < 256) (hage : now - t ≤ maxAge) :
    loads secret salt (dumps secret salt payload t) (some maxAge) now = .ok payload := by
  have hd : dumps secret salt payload t
      = (hexPairs payload ++ 46 :: encTs t)
        ++ 46 :: macFn secret salt (hexPairs payload ++ 46 :: encTs t) := rfl
  rw [hd]
  simp only [loads, rsplitDot_append _ _ (dot_not_mem_macFn secret salt _),
    rsplitDot_append _ _ (dot_not_mem_encTs t), decodeTs_encTs]
  rw [if_pos trivial, if_neg (by omega), decodeHex_hexPairs_id _ hpay]

/-- Claim C2: verifying the result of signing a payload under the same
secret returns exactly that payload whenever the elapsed time `now - t`
is at most the maximum age (round-trip law of `sign_token` followed by
`verify_token`).  Payload bytes are below 256. -/
theorem verify_sign_roundtrip (secret payload : Str) (t now maxAge : Nat)
    (hpay : ∀ c ∈ payload, c < 256) (hage : now - t ≤ maxAge) :
    verify_token secret (sign_token secret payload t) (some maxAge) now = some payload := by
  have h := loads_dumps secret saltAdminCookie payload t now maxAge hpay hage
  simp only [verify_token, sign_token, h]

/-- Witness for the round-trip law at a concrete payload and age. -/
theorem verify_sign_roundtrip_witness :
    verify_token [107] (sign_token [107] (strLit "hi") 1) (some 100) 5 = some (strLit "hi") :=
  verify_sign_roundtrip [107] (strLit "hi") 1 5 100 (by decide) (by decide)

/-- Claim C7: `verify_token` is a total function: on every input it
resolves either to the embedded payload or to `none`, and each of the
serializer failure kinds (bad signature and expiry; any other decode
failure also surfaces as a bad signature in the modelled serializer) is
returned as `none` rather than propagated. -/
theorem verify_token_never_raises (secret value : Str) (maxAge : Option Nat) (now : Nat) :
    (∃ p, loads secret saltAdminCookie value maxAge now = .ok p
        ∧ verify_token secret value maxAge now = some p)
    ∨ ((loads secret saltAdminCookie value maxAge now = .badSignature
        ∨ loads secret saltAdminCookie value maxAge now = .signatureExpired)
        ∧ verify_token secret value maxAge now = none) := by
  rcases h : loads secret saltAdminCookie value maxAge now with p | _ | _
  · exact Or.inl ⟨p, rfl, by simp only [verify_token, h]⟩
  · exact Or.inr ⟨Or.inl rfl, by simp only [verify_token, h]⟩
  · exact Or.inr ⟨Or.inr rfl, by simp only [verify_token, h]⟩

/-- Claim C1, counterexample: a present but empty session cookie is a
cookie on which verification fails (`verify_token` returns `none` on the
empty value), yet the guard answers with detail "Not authenticated", not
with the claimed "Invalid or expired token". -/
theorem guard_empty_cookie_refutes_claim :
    get_current_admin_token defaultSettings (some []) 0
      = .httpError 401 (strLit "Not authenticated")
    ∧ verify_token defaultSettings.secret_key [] (some defaultSettings.cookie_max_age) 0 = none
    ∧ strLit "Not authenticated" ≠ strLit "Invalid or expired token" :=
  ⟨rfl, rfl, by decide⟩

/-- Claim C1 (amended): the guard answers 401 "Not authenticated" when
the cookie is absent or empty; for a present non-empty cookie failing
verification it answers 401 "Invalid or expired token"; when
verification succeeds with a non-empty embedded token the handler
receives exactly that token; a successfully verified empty token is
rejected as 401 "Invalid or expired token" (Python truthiness). -/
theorem guard_auth_behavior (st : Settings) (cookie : Option Str) (now : Nat) :
    ((cookie = none ∨ cookie = some []) →
      get_current_admin_token st cookie now = .httpError 401 (strLit "Not authenticated"))
    ∧ (∀ v, cookie = some v → v ≠ [] →
        verify_token st.secret_key v (some st.cookie_max_age) now = none →
        get_current_admin_token st cookie now = .httpError 401 (strLit "Invalid or expired token"))
    ∧ (∀ v p, cookie = some v → v ≠ [] →
        verify_token st.secret_key v (some st.cookie_max_age) now = some p → p ≠ [] →
        get_current_admin_token st cookie now = .ok p)
    ∧ (∀ v, cookie = some v → v ≠ [] →
        verify_token st.secret_key v (some st.cookie_max_age) now = some [] →
        get_current_admin_token st cookie now = .httpError 401 (strLit "Invalid or expired token")) := by
  refine ⟨?_, ?_, ?_, ?_⟩
  · rintro (rfl | rfl) <;> rfl
  · rintro v rfl hv hver
    simp only [get_current_admin_token, if_neg hv, hver]
  · rintro v p rfl hv hver hp
    simp only [get_current_admin_token, if_neg hv, hver, if_neg hp]
  · rintro v rfl hv hver
    simp only [get_current_admin_token, if_neg hv, hver]
    rfl

/-- Witness for the amended guard behavior: a freshly signed non-empty
token is handed to the handler unchanged. -/
theorem guard_auth_behavior_witness :
    get_current_admin_token defaultSettings
      (some (sign_token defaultSettings.secret_key (strLit "jwt") 0)) 0 = .ok (strLit "jwt") :=
  (guard_auth_behavior defaultSettings
    (some (sign_token defaultSettings.secret_key (strLit "jwt") 0)) 0).2.2.1
    (sign_token defaultSettings.secret_key (strLit "jwt") 0) (strLit "jwt")
    rfl (by decide) (by decide) (by decide)

/-- Claim C10: a present session cookie equal to the empty string is
treated exactly like an absent cookie: 401 with detail
"Not authenticated" (which differs from "Invalid or expired token"), for
every secret, max age and time - in particular the answer never depends
on signature verification. -/
theorem empty_cookie_treated_as_absent (st : Settings) (now : Nat) :
    get_current_admin_token st (some []) now = .httpError 401 (strLit "Not authenticated")
    ∧ strLit "Not authenticated" ≠ strLit "Invalid or expired token" :=
  ⟨rfl, by decide⟩

/-- Claim C3: when the upstream login response has a status other than
200, or no body, or a body without the "token" field, login fails with
401 and the single generic detail "Invalid credentials", and no cookie
is set on the response. -/
theorem login_failure_no_cookie (st : Settings) (tr : Transport) (email password : Str)
    (now s : Nat) (d : Option Body)
    (h : gateway_request st tr "POST" "/admin/login" none
        (some [("email", email), ("password", password)]) [] = .ok (s, d))
    (hfail : s ≠ 200 ∨ d = none ∨ ∀ dd, d = some dd → dd.lookup "token" = none) :
    login st tr email password now = ⟨.httpError 401 (strLit "Invalid credentials"), none⟩ := by
  simp only [login, h]
  rcases hfail with hs | hd | htok
  · simp [hs]
  · subst hd; simp
  · cases d with
    | none => simp
    | some dd =>
      by_cases hdd : dd = []
      · simp [hdd]
      · simp [hdd, htok dd rfl]

/-- Witness for the login failure path: upstream 401 without a body. -/
theorem login_failure_no_cookie_witness :
    login defaultSettings (fun _ => .response 401 .unparsable) (strLit "a") (strLit "b") 0
      = ⟨.httpError 401 (strLit "Invalid credentials"), none⟩ :=
  login_failure_no_cookie defaultSettings (fun _ => .response 401 .unparsable)
    (strLit "a") (strLit "b") 0 401 none rfl (Or.inl (by decide))

/-- Claim C4: when the upstream login response is 200 with a body
carrying a "token" field, login sets the session cookie to the signed
encoding of that token, returns the body `{success: true}` (a body that
consists of the single boolean, so the token value never appears in it),
and decoding the cookie value within the max age yields exactly the
upstream-issued token. -/
theorem login_success_sets_cookie (st : Settings) (tr : Transport) (email password : Str)
    (now : Nat) (d : Body) (tok : Str)
    (h : gateway_request st tr "POST" "/admin/login" none
        (some [("email", email), ("password", password)]) [] = .ok (200, some d))
    (htok : d.lookup "token" = some tok) :
    login st tr email password now
      = ⟨.okLogin true,
          some ⟨st.cookie_name, sign_token st.secret_key tok now,
                st.cookie_max_age, true, false, "strict"⟩⟩
    ∧ ∀ (now2 maxAge : Nat), (∀ c ∈ tok, c < 256) → now2 - now ≤ maxAge →
        verify_token st.secret_key (sign_token st.secret_key tok now) (some maxAge) now2
          = some tok := by
  constructor
  · have hdd : d ≠ [] := by intro hnil; rw [hnil] at htok; cases htok
    simp only [login, h]
    rw [if_neg (not_not_intro rfl)]
    simp only [if_neg hdd, htok]
  · intro now2 maxAge hb hage
    have hl := loads_dumps st.secret_key saltAdminCookie tok now now2 maxAge hb hage
    simp only [verify_token, sign_token, hl]

/-- Witness for the login success path: concrete upstream token, cookie
set to its signed encoding and decodable back to it. -/
theorem login_success_sets_cookie_witness :
    login defaultSettings (fun _ => .response 200 (.parsed [("token", strLit "tk")]))
        (strLit "a") (strLit "b") 7
      = ⟨.okLogin true,
          some ⟨"admin_token", sign_token defaultSettings.secret_key (strLit "tk") 7,
                3600, true, false, "strict"⟩⟩
    ∧ verify_token defaultSettings.secret_key
        (sign_token defaultSettings.secret_key (strLit "tk") 7) (some 3600) 8
        = some (strLit "tk") := by
  have h := login_success_sets_cookie defaultSettings
    (fun _ => .response 200 (.parsed [("token", strLit "tk")]))
    (strLit "a") (strLit "b") 7 [("token", strLit "tk")] (strLit "tk") rfl rfl
  exact ⟨h.1, h.2 8 3600 (by decide) (by decide)⟩

/-- Claim C5: every proxy handler surfaces a non-200 upstream status
unchanged, with the upstream body's "detail" field as detail when
present and the handler's generic fallback when the body is absent or
lacks that field (the trailing conjuncts state the detail rule of
`pyDetail` explicitly). -/
theorem proxy_passthrough_status_detail (st : Settings) (tr : Transport) (jwt : Str) :
    (∀ s d, gateway_request st tr "GET" "/admin/me" (some jwt) none [] = .ok (s, d) →
      s ≠ 200 → me st tr jwt = .httpError s (pyDetail d (strLit "Failed to get user info")))
    ∧ (∀ page page_size s d,
        gateway_request st tr "GET" "/admin/keys" (some jwt) none
          [("page", page), ("page_size", page_size)] = .ok (s, d) →
        s ≠ 200 → list_api_keys st tr jwt page page_size
          = .httpError s (pyDetail d (strLit "Failed to list API keys")))
    ∧ (∀ page page_size s d,
        gateway_request st tr "GET" "/admin/models" (some jwt) none
          [("page", page), ("page_size", page_size)] = .ok (s, d) →
        s ≠ 200 → list_models st tr jwt page page_size
          = .httpError s (pyDetail d (strLit "Failed to list models")))
    ∧ (∀ s d, gateway_request st tr "GET" "/admin/billing" (some jwt) none [] = .ok (s, d) →
        s ≠ 200 → get_billing st tr jwt
          = .httpError s (pyDetail d (strLit "Failed to get billing info")))
    ∧ (∀ fb : Str, pyDetail none fb = fb)
    ∧ (∀ (dd : Body) (v fb : Str), dd.lookup "detail" = some v → pyDetail (some dd) fb = v)
    ∧ (∀ (dd : Body) (fb : Str), dd.lookup "detail" = none → pyDetail (some dd) fb = fb) := by
  refine ⟨?_, ?_, ?_, ?_, fun fb => rfl, ?_, ?_⟩
  · intro s d h hs
    simp only [me, h, if_pos hs]
  · intro page page_size s d h hs
    simp only [list_api_keys, h, if_pos hs]
  · intro page page_size s d h hs
    simp only [list_models, h, if_pos hs]
  · intro s d h hs
    simp only [get_billing, h, if_pos hs]
  · intro dd v fb hv
    have hdd : dd ≠ [] := by intro hnil; rw [hnil] at hv; cases hv
    simp only [pyDetail, if_neg hdd, hv]
  · intro dd fb hv
    by_cases hdd : dd = []
    · simp only [pyDetail, if_pos hdd]
    · simp only [pyDetail, if_neg hdd, hv]

/-- Witness for the passthrough rule: upstream 404 with a detail field
is surfaced as 404 with that detail by all four handlers. -/
theorem proxy_passthrough_status_detail_witness :
    me defaultSettings (fun _ => .response 404 (.parsed [("detail", strLit "gone")])) (strLit "t")
      = .httpError 404 (strLit "gone")
    ∧ list_api_keys defaultSettings
        (fun _ => .response 404 (.parsed [("detail", strLit "gone")])) (strLit "t") 1 20
      = .httpError 404 (strLit "gone")
    ∧ list_models defaultSettings
        (fun _ => .response 404 (.parsed [("detail", strLit "gone")])) (strLit "t") 1 20
      = .httpError 404 (strLit "gone")
    ∧ get_billing defaultSettings
        (fun _ => .response 404 (.parsed [("detail", strLit "gone")])) (strLit "t")
      = .httpError 404 (strLit "gone") := by
  have h := proxy_passthrough_status_detail defaultSettings
    (fun _ => .response 404 (.parsed [("detail", strLit "gone")])) (strLit "t")
  exact ⟨h.1 404 (some [("detail", strLit "gone")]) rfl (by decide),
    h.2.1 1 20 404 (some [("detail", strLit "gone")]) rfl (by decide),
    h.2.2.1 1 20 404 (some [("detail", strLit "gone")]) rfl (by decide),
    h.2.2.2.1 404 (some [("detail", strLit "gone")]) rfl (by decide)⟩

/-- Claim C6: a call to the api-keys or models route with `page` below
1, `page_size` below 1 or `page_size` above 100 is rejected with a local
422 validation error; the result is this error for every transport
oracle, so no upstream call is consulted. -/
theorem pagination_rejected_locally (st : Settings) (tr : Transport) (jwt : Str)
    (page page_size : Int) (hbad : page < 1 ∨ page_size < 1 ∨ 100 < page_size) :
    list_api_keys_route st tr jwt page page_size
      = .httpError 422 (strLit "Unprocessable Entity")
    ∧ list_models_route st tr jwt page page_size
      = .httpError 422 (strLit "Unprocessable Entity") := by
  have hcond : ¬(1 ≤ page ∧ 1 ≤ page_size ∧ page_size ≤ 100) := by
    rcases hbad with h | h | h <;> intro hc <;> omega
  exact ⟨by rw [list_api_keys_route, if_neg hcond],
    by rw [list_models_route, if_neg hcond]⟩

/-- Witness for the local pagination validation at page_size 101. -/
theorem pagination_rejected_locally_witness :
    list_api_keys_route defaultSettings (fun _ => .response 200 (.parsed [])) (strLit "t") 1 101
      = .httpError 422 (strLit "Unprocessable Entity")
    ∧ list_models_route defaultSettings (fun _ => .response 200 (.parsed [])) (strLit "t") 1 101
      = .httpError 422 (strLit "Unprocessable Entity") :=
  pagination_rejected_locally defaultSettings (fun _ => .response 200 (.parsed []))
    (strLit "t") 1 101 (Or.inr (Or.inr (by decide)))

/-- Claim C8 (divergence): every outbound request is built with the
fixed 30-second timeout, but on a transport failure (timeout or
unreachable upstream) `gateway_request` propagates the failure
(`.error ()`, the uncaught exception) and every handler resolves to the
propagated `transportError` - no 502/503-class response with a generic
detail is ever produced by this code. -/
theorem gateway_timeout_and_error_propagation (st : Settings) (method path : String)
    (jwt_token : Option Str) (json_data : Option Body) (params : List (String × Int))
    (tok email password : Str) (now : Nat) :
    (mkTransportReq st method path jwt_token json_data params).timeout = 30
    ∧ gateway_request st failTr method path jwt_token json_data params = .error ()
    ∧ me st failTr tok = .transportError
    ∧ list_api_keys st failTr tok 1 20 = .transportError
    ∧ list_models st failTr tok 1 20 = .transportError
    ∧ get_billing st failTr tok = .transportError
    ∧ login st failTr email password now = ⟨.transportError, none⟩ :=
  ⟨rfl, rfl, rfl, rfl, rfl, rfl, rfl⟩

/-! Helper facts about single-byte modifications of a byte string. -/

theorem getD_append_right_own (l1 l2 : Str) (n d : Nat) :
    (l1 ++ l2).getD (l1.length + n) d = l2.getD n d := by
  induction l1 with
  | nil => rw [List.nil_append, List.length_nil, Nat.zero_add]
  | cons a l1 ih =>
    have h : (a :: l1).length + n = (l1.length + n) + 1 := by
      rw [List.length_cons]; omega
    rw [List.cons_append, h]
    exact ih

theorem set_ne_of_ne (l : Str) (i a : Nat) (hl : i < l.length) (hne : a ≠ l.get ⟨i, hl⟩) :
    l.set i a ≠ l := by
  induction l generalizing i with
  | nil => simp at hl
  | cons c rest ih =>
    cases i with
    | zero =>
      intro he
      exact hne (List.cons.inj he).1
    | succ i =>
      intro he
      have hi : i < rest.length := by
        rw [List.length_cons] at hl; omega
      exact ih i hi hne (List.cons.inj he).2

/-- Core tamper-detection lemma: in a well-formed signed value (dot-free
payload part `P`, dot-free timestamp part `T`, integrity tag over the
joined part), replacing any single byte by a different byte below 256
makes the serializer load fail with a bad signature. -/
theorem loads_flip_badSignature (secret salt P T : Str)
    (hPdot : 46 ∉ P) (hTdot : 46 ∉ T)
    (hPlt : ∀ c ∈ P, c < 256) (hTlt : ∀ c ∈ T, c < 256)
    (i b : Nat) (maxAge : Option Nat) (now : Nat)
    (hi : i < ((P ++ 46 :: T) ++ 46 :: macFn secret salt (P ++ 46 :: T)).length)
    (hb : b < 256)
    (hne : b ≠ ((P ++ 46 :: T) ++ 46 :: macFn secret salt (P ++ 46 :: T)).getD i 0) :
    loads secret salt (((P ++ 46 :: T) ++ 46 :: macFn secret salt (P ++ 46 :: T)).set i b)
      maxAge now = .badSignature := by
  revert hi hne
  generalize hrest : P ++ 46 :: T = rest
  generalize hsig : macFn secret salt rest = sig
  intro hi hne
  have hrest_lt : ∀ c ∈ rest, c < 256 := by
    intro c hc
    rw [← hrest] at hc
    rcases List.mem_append.mp hc with h1 | h2
    · exact hPlt c h1
    · rcases List.mem_cons.mp h2 with h3 | h4
      · omega
      · exact hTlt c h4
  have hsig_dot : 46 ∉ sig := by
    rw [← hsig]; exact dot_not_mem_macFn _ _ _
  have hslen : sig.length = 2 * (secret.length + salt.length + rest.length) := by
    rw [← hsig]; exact macFn_length _ _ _
  have hrlen : rest.length = P.length + 1 + T.length := by
    rw [← hrest, List.length_append, List.length_cons]; omega
  rcases Nat.lt_trichotomy i rest.length with hlt | heq | hgt
  · -- the flip lands in the signed (payload-plus-timestamp) part
    have hgd : (rest ++ 46 :: sig).getD i 0 = rest.get ⟨i, hlt⟩ := by
      rw [List.getD_append _ _ _ _ hlt, List.getD_eq_get rest 0 hlt]
    rw [hgd] at hne
    have hsetne : rest.set i b ≠ rest := set_ne_of_ne rest i b hlt hne
    have hbnd : ∀ c ∈ rest.set i b, c < 256 := by
      intro c hc
      rcases List.mem_or_eq_of_mem_set hc with h1 | h2
      · exact hrest_lt c h1
      · omega
    have hmac_ne : ¬(sig = macFn secret salt (rest.set i b)) := by
      intro hEq
      exact hsetne (macFn_inj secret salt _ _ hbnd hrest_lt (hEq.symm.trans hsig.symm))
    rw [List.set_append_left i b hlt]
    simp only [loads, rsplitDot_append _ _ hsig_dot]
    rw [if_neg hmac_ne]
  · -- the flip lands on the separator dot
    subst heq
    have hgd : (rest ++ 46 :: sig).getD rest.length 0 = 46 :=
      getD_append_right_own rest (46 :: sig) 0 0
    rw [hgd] at hne
    have hm : (rest ++ 46 :: sig).set rest.length b = rest ++ b :: sig := by
      rw [List.set_append_right _ _ (le_refl rest.length), Nat.sub_self]
      rfl
    rw [hm]
    have hm2 : rest ++ b :: sig = P ++ 46 :: (T ++ b :: sig) := by
      rw [← hrest]
      simp [List.cons_append, List.append_assoc]
    rw [hm2]
    have hdot2 : 46 ∉ T ++ b :: sig := by
      intro hc
      rcases List.mem_append.mp hc with h1 | h2
      · exact hTdot h1
      · rcases List.mem_cons.mp h2 with h3 | h4
        · exact hne h3.symm
        · exact hsig_dot h4
    have hckne : ¬(T ++ b :: sig = macFn secret salt P) := by
      intro hEq
      have hLL := congrArg List.length hEq
      rw [List.length_append, List.length_cons, macFn_length] at hLL
      omega
    simp only [loads, rsplitDot_append _ _ hdot2]
    rw [if_neg hckne]
  · -- the flip lands in the integrity tag
    obtain ⟨j, rfl⟩ : ∃ j, i = rest.length + 1 + j := ⟨i - rest.length - 1, by omega⟩
    have hvl : (rest ++ 46 :: sig).length = rest.length + 1 + sig.length := by
      rw [List.length_append, List.length_cons]; omega
    have hj : j < sig.length := by rw [hvl] at hi; omega
    have hgd : (rest ++ 46 :: sig).getD (rest.length + 1 + j) 0 = sig.get ⟨j, hj⟩ := by
      have h1 : rest.length + 1 + j = rest.length + (j + 1) := by omega
      rw [h1, getD_append_right_own rest (46 :: sig) (j + 1) 0]
      exact List.getD_eq_get sig 0 hj
    rw [hgd] at hne
    have hm : (rest ++ 46 :: sig).set (rest.length + 1 + j) b = rest ++ 46 :: sig.set j b := by
      rw [List.set_append_right _ _ (by omega : rest.length ≤ rest.length + 1 + j)]
      have h2 : rest.length + 1 + j - rest.length = j + 1 := by omega
      rw [h2]
      rfl
    rw [hm]
    by_cases hb46 : b = 46
    · -- the flipped byte is itself a dot: the value re-splits inside the tag
      subst hb46
      have hsplit : sig.set j 46 = sig.take j ++ 46 :: sig.drop (j + 1) :=
        List.set_eq_take_cons_drop 46 hj
      have hdot3 : 46 ∉ sig.drop (j + 1) := fun hc => hsig_dot (List.mem_of_mem_drop hc)
      have hm3 : rest ++ 46 :: (sig.take j ++ 46 :: sig.drop (j + 1))
          = (rest ++ 46 :: sig.take j) ++ 46 :: sig.drop (j + 1) := by
        simp [List.cons_append, List.append_assoc]
      have hckne : ¬(sig.drop (j + 1) = macFn secret salt (rest ++ 46 :: sig.take j)) := by
        intro hEq
        have hLL := congrArg List.length hEq
        rw [List.length_drop, macFn_length, List.length_append, List.length_cons,
          List.length_take, min_eq_left_of_lt hj] at hLL
        omega
      rw [hsplit, hm3]
      simp only [loads, rsplitDot_append _ _ hdot3]
      rw [if_neg hckne]
    · -- ordinary flip inside the tag: the stored tag no longer matches
      have hdot4 : 46 ∉ sig.set j b := by
        intro hc
        rcases List.mem_or_eq_of_mem_set hc with h1 | h2
        · exact hsig_dot h1
        · exact hb46 h2.symm
      have hsetne : sig.set j b ≠ sig := set_ne_of_ne sig j b hj hne
      have hckne : ¬(sig.set j b = macFn secret salt rest) := by
        intro hEq
        exact hsetne (hEq.trans hsig)
      simp only [loads, rsplitDot_append _ _ hdot4]
      rw [if_neg hckne]

/-- Claim C9: replacing any single byte of a properly signed value by a
different byte makes `verify_token` fail with the invalid-signature
outcome (the serializer load answers bad signature, hence the verifier
answers `none`); in particular the modified value never verifies to a
payload different from the originally signed one.  This holds in the
symbolic model of the integrity tag (collision-free keyed code). -/
theorem verify_rejects_byte_flip (secret payload : Str) (t i b : Nat)
    (maxAge : Option Nat) (now : Nat)
    (hi : i < (sign_token secret payload t).length)
    (hb : b < 256)
    (hne : b ≠ (sign_token secret payload t).getD i 0) :
    loads secret saltAdminCookie ((sign_token secret payload t).set i b) maxAge now
      = .badSignature
    ∧ verify_token secret ((sign_token secret payload t).set i b) maxAge now = none := by
  have hmain := loads_flip_badSignature secret saltAdminCookie (hexPairs payload) (encTs t)
    (dot_not_mem_hexPairs payload) (dot_not_mem_encTs t)
    (mem_hexPairs_lt payload) (mem_encTs_lt t)
    i b maxAge now hi hb hne
  have hms : loads secret saltAdminCookie ((sign_token secret payload t).set i b) maxAge now
      = .badSignature := hmain
  exact ⟨hms, by simp only [verify_token, hms]⟩

/-- Witness: flipping the first byte of a concrete signed value makes
verification fail with a bad signature. -/
theorem verify_rejects_byte_flip_witness :
    loads [107] saltAdminCookie ((sign_token [107] (strLit "hi") 1).set 0 48) (some 100) 5
      = .badSignature
    ∧ verify_token [107] ((sign_token [107] (strLit "hi") 1).set 0 48) (some 100) 5 = none :=
  verify_rejects_byte_flip [107] (strLit "hi") 1 0 48 (some 100) 5
    (by decide) (by decide) (by decide)

end Bff
